import Mathlib

/-!
# Verification of the Storm Wiki pipeline adapters

Shallow embedding of the four `storm_wiki_pipeline.py` adapter variants
(`src/examples/pipelines/providers`, `src/examples/filters`,
`src/examples/pipelines/integrations`, `src/pipelines`) of the
zabirauf/pipelines repository, together with proofs about them.

The external `knowledge_storm` engine, the OpenAI client and the filesystem
are opaque collaborators; they are modelled by an environment record
(`EngineEnv`) that fixes the outcome of each external call, and the adapter
code is translated statement by statement into pure functions that return
both a result (`Except PyError String`, mirroring the Python raise/return) and
the list of externally visible effects performed, in order.  Temporary
directory names produced by `tempfile.mkdtemp` are modelled as natural
numbers drawn from a freshness counter, reflecting the mkdtemp guarantee that
each call yields a new directory.
-/

namespace StormWiki

/-- The `Valves` configuration common to all four variants:
`OPENAI_API_KEY`, `YOU_API_KEY`, `REGULAR_MODEL_NAME`, `SMART_MODEL_NAME`. -/
structure Valves where
  OPENAI_API_KEY : String
  YOU_API_KEY : String
  REGULAR_MODEL_NAME : String
  SMART_MODEL_NAME : String
deriving DecidableEq

/-- A Python exception, as far as the adapters can observe one. -/
inductive PyError where
  /-- Python `NameError`: name n is not defined -/
  | nameError (n : String)
  /-- a `SyntaxError` raised while compiling a module -/
  | parseError
  /-- any other exception, identified by its `str(e)` text -/
  | exn (msg : String)
deriving DecidableEq

/-- Python `str(e)` for a modelled exception. -/
def PyError.str : PyError → String
  | .nameError n => "name " ++ n ++ " is not defined"
  | .parseError => "invalid syntax"
  | .exn m => m

/-- One language-model role configuration: the arguments passed to
`OpenAIModel(model=..., max_tokens=..., **openai_kwargs)` where
`openai_kwargs = {api_key, temperature: 1.0, top_p: 0.9}`. -/
structure LMSpec where
  model : String
  max_tokens : Nat
  api_key : String
  temperature : Rat
  top_p : Rat
deriving DecidableEq

/-- The five role slots of `STORMWikiLMConfigs`, as filled by the five
`set_*_lm` calls. -/
structure LMConfigsAssignment where
  conv_simulator_lm : LMSpec
  question_asker_lm : LMSpec
  outline_gen_lm : LMSpec
  article_gen_lm : LMSpec
  article_polish_lm : LMSpec
deriving DecidableEq

/-- The arguments of `STORMWikiRunnerArguments`.  `output_dir` is an
abstract directory name (see module doc). -/
structure EngineArgs where
  output_dir : Nat
  max_conv_turn : Nat
  max_perspective : Nat
  search_top_k : Nat
  max_thread_num : Nat
deriving DecidableEq

/-- The arguments of `YouRM(ydc_api_key=..., k=...)`. -/
structure YouRMSpec where
  ydc_api_key : String
  k : Nat
deriving DecidableEq

/-- One record of the `url_to_info` mapping in `url_to_info.json`:
`title`, `description` and `snippets` are each optional JSON fields
(`snippets` defaults to the empty list via `info.get("snippets", [])`,
so an absent field and an empty list are indistinguishable to the code). -/
structure UrlInfo where
  title : Option String
  description : Option String
  snippets : List String
deriving DecidableEq

/-- The parsed `url_to_info.json` file: an insertion-ordered mapping
`url_to_info` from URL to `UrlInfo`, and a mapping `url_to_unified_index`
from URL to assigned citation number. -/
structure CitationsData where
  url_to_info : List (String × UrlInfo)
  url_to_unified_index : List (String × Int)
deriving DecidableEq

/-- The externally visible effects an adapter can perform, in order.
`rmtree` is in the alphabet so that directory deletion is expressible;
none of the adapters ever emits it. -/
inductive Effect where
  /-- call `tempfile.mkdtemp()` returned the fresh directory `dir` -/
  | mkdtemp (dir : Nat)
  /-- call `STORMWikiRunner(engine_args, lm_configs, research_module)` -/
  | engineConstructed (args : EngineArgs) (lm : LMConfigsAssignment) (rm : YouRMSpec)
  /-- call `runner.run(topic=topic, do_research=True,
  do_generate_outline=True, do_generate_article=True,
  do_polish_article=True)` -/
  | engineRun (topic : String)
  /-- call `runner.post_run()` -/
  | enginePostRun
  /-- call `runner.summary()` -/
  | engineSummary
  /-- the polished-article file was opened and read -/
  | readArticle
  /-- call `shutil.rmtree(dir)` or equivalent directory deletion -/
  | rmtree (dir : Nat)
deriving DecidableEq

/-- Outcomes of the opaque external calls: what the engine, the filesystem
under the engine-reported output directory, and the auxiliary OpenAI
topic-extraction call would do if invoked. -/
structure EngineEnv where
  /-- outcome of `runner.run(...)` -/
  runOutcome : Except PyError Unit
  /-- outcome of `runner.post_run()` -/
  postRunOutcome : Except PyError Unit
  /-- outcome of `runner.summary()` -/
  summaryOutcome : Except PyError Unit
  /-- contents of `storm_gen_article_polished.txt` under
  `runner.article_output_dir`, `none` when `os.path.exists` is false -/
  polishedArticle : Option String
  /-- state of `url_to_info.json`: `none` when absent, `some (.error e)`
  when reading or `json.load` raises, `some (.ok d)` when it parses -/
  citationsFile : Option (Except PyError CitationsData)
  /-- outcome of the `client.chat.completions.create` topic-extraction call
  (including `OpenAI(api_key=...)` client construction), as a function of
  the user message: the returned `response.choices[0].message.content` -/
  extractTopic : String → Except PyError String

/-- A chat message as the `pipe` method sees it. -/
structure Message where
  role : String
  content : String
deriving DecidableEq

instance {ε α : Type} [DecidableEq ε] [DecidableEq α] : DecidableEq (Except ε α) := fun x y =>
  match x, y with
  | .ok a, .ok b =>
      if h : a = b then isTrue (by rw [h]) else isFalse (by intro hc; cases hc; exact h rfl)
  | .ok _, .error _ => isFalse (by intro hc; cases hc)
  | .error _, .ok _ => isFalse (by intro hc; cases hc)
  | .error e, .error f =>
      if h : e = f then isTrue (by rw [h]) else isFalse (by intro hc; cases hc; exact h rfl)

/-- Result of one adapter call: the Python return value or uncaught
exception, the effects performed, and the updated mkdtemp freshness
counter. -/
structure RunResult where
  result : Except PyError String
  effects : List Effect
  alloc : Nat
deriving DecidableEq

/-! ## Fixed strings returned by the adapters -/

def openaiKeyMsg : String := "OpenAPI Key not set, ask the user to set it up."

def youKeyMsg : String := "You.com API Key not set, ask the user to set it up."

def articleNotFoundMsg : String := "Error: Polished article not found."

def refusalMsg : String := "I\x27m sorry, I can\x27t chat about previous research."

/-! ## Citations renderer

`Pipeline.generate_citations_markdown`
(src/examples/pipelines/providers/storm_wiki_pipeline.py lines 154-175). -/

/-- Python: `citations_data["url_to_info"][url]` can never miss (the url is
drawn from the keys of that very dict); the default is irrelevant. -/
def defaultUrlInfo : UrlInfo := ⟨none, none, []⟩

/-- Python: `[(int(citations_data["url_to_unified_index"].get(url, "0")),
url) for url in citations_data["url_to_info"].keys()]` — a URL missing from
`url_to_unified_index` gets citation number 0. -/
def rawCitationsList (cd : CitationsData) : List (Int × String) :=
  cd.url_to_info.map (fun p => ((cd.url_to_unified_index.lookup p.1).getD 0, p.1))

/-- Insert `x` after every element whose key is `≤ x.1` (before the first
strictly greater one).  Folding this over the input from the left is
exactly a stable ascending sort, matching the stable Python `list.sort`. -/
def insertAfterLe (x : Int × String) : List (Int × String) → List (Int × String)
  | [] => [x]
  | y :: ys => if y.1 ≤ x.1 then y :: insertAfterLe x ys else x :: y :: ys

/-- Python: `citations_list.sort(key=lambda x: x[0])` — the built-in sort
is stable, ascending. -/
def pySortByKey (l : List (Int × String)) : List (Int × String) :=
  l.foldl (fun acc x => insertAfterLe x acc) []

/-- The sorted `citations_list` the renderer iterates over. -/
def citationsList (cd : CitationsData) : List (Int × String) :=
  pySortByKey (rawCitationsList cd)

/-- Python: `for snippet in snippets[:3]:` appending a bullet per snippet. -/
def snippetBullets (snippets : List String) : String :=
  String.join ((snippets.take 3).map (fun s => "- " ++ s ++ "\n\n"))

/-- The markdown block emitted for one `(citation_number, url)` pair. -/
def citationEntry (cd : CitationsData) (p : Int × String) : String :=
  let info := (cd.url_to_info.lookup p.2).getD defaultUrlInfo
  "### [" ++ toString p.1 ++ "] [" ++ info.title.getD "Untitled" ++ "](" ++ p.2 ++ ")\n\n"
    ++ info.description.getD "No description available" ++ "\n\n"
    ++ (if info.snippets.isEmpty then "" else "**Relevant Snippets:**\n\n" ++ snippetBullets info.snippets)
    ++ "---\n\n"

/-- Function `Pipeline.generate_citations_markdown` (providers variant, lines
154-175). -/
def generate_citations_markdown (cd : CitationsData) : String :=
  "## Citations\n\n" ++ String.join ((citationsList cd).map (citationEntry cd))

/-! ## Per-variant model-role, engine-argument and retrieval configuration

Each definition transcribes the configuration-assembly statements of one
source file.  In the providers and filters variants these statements live
inside `research_topic`; in the integrations and `src/pipelines` variants
they live inside the `Tools` constructor (whose argument lists name the
same models and token limits, even though the constructor itself crashes on
an undefined name — see the name-resolution model below). -/

/-- providers variant, lines 69-86: the five `OpenAIModel(...)` configs. -/
def providersLMConfigs (v : Valves) : LMConfigsAssignment :=
  let api_key := v.OPENAI_API_KEY
  let regular_model_name := v.REGULAR_MODEL_NAME
  let smart_model_name := v.SMART_MODEL_NAME
  { conv_simulator_lm := ⟨regular_model_name, 500, api_key, 1, 9/10⟩
    question_asker_lm := ⟨regular_model_name, 500, api_key, 1, 9/10⟩
    outline_gen_lm := ⟨smart_model_name, 400, api_key, 1, 9/10⟩
    article_gen_lm := ⟨smart_model_name, 700, api_key, 1, 9/10⟩
    article_polish_lm := ⟨smart_model_name, 4000, api_key, 1, 9/10⟩ }

/-- filters variant, lines 53-70: identical assembly. -/
def filtersLMConfigs (v : Valves) : LMConfigsAssignment :=
  let api_key := v.OPENAI_API_KEY
  let regular_model_name := v.REGULAR_MODEL_NAME
  let smart_model_name := v.SMART_MODEL_NAME
  { conv_simulator_lm := ⟨regular_model_name, 500, api_key, 1, 9/10⟩
    question_asker_lm := ⟨regular_model_name, 500, api_key, 1, 9/10⟩
    outline_gen_lm := ⟨smart_model_name, 400, api_key, 1, 9/10⟩
    article_gen_lm := ⟨smart_model_name, 700, api_key, 1, 9/10⟩
    article_polish_lm := ⟨smart_model_name, 4000, api_key, 1, 9/10⟩ }

/-- integrations variant, lines 42-59: the argument table of the five
`ModelClass(...)` calls (models, token limits, kwargs as written). -/
def integrationsLMConfigs (v : Valves) : LMConfigsAssignment :=
  let api_key := v.OPENAI_API_KEY
  let regular_model_name := v.REGULAR_MODEL_NAME
  let smart_model_name := v.SMART_MODEL_NAME
  { conv_simulator_lm := ⟨regular_model_name, 500, api_key, 1, 9/10⟩
    question_asker_lm := ⟨regular_model_name, 500, api_key, 1, 9/10⟩
    outline_gen_lm := ⟨smart_model_name, 400, api_key, 1, 9/10⟩
    article_gen_lm := ⟨smart_model_name, 700, api_key, 1, 9/10⟩
    article_polish_lm := ⟨smart_model_name, 4000, api_key, 1, 9/10⟩ }

/-- src/pipelines variant, lines 24-42: same argument table. -/
def pipelinesLMConfigs (v : Valves) : LMConfigsAssignment :=
  let api_key := v.OPENAI_API_KEY
  let regular_model_name := v.REGULAR_MODEL_NAME
  let smart_model_name := v.SMART_MODEL_NAME
  { conv_simulator_lm := ⟨regular_model_name, 500, api_key, 1, 9/10⟩
    question_asker_lm := ⟨regular_model_name, 500, api_key, 1, 9/10⟩
    outline_gen_lm := ⟨smart_model_name, 400, api_key, 1, 9/10⟩
    article_gen_lm := ⟨smart_model_name, 700, api_key, 1, 9/10⟩
    article_polish_lm := ⟨smart_model_name, 4000, api_key, 1, 9/10⟩ }

/-- Call `STORMWikiRunnerArguments(output_dir=..., max_conv_turn=3,
max_perspective=3, search_top_k=3, max_thread_num=3)` — identical in all
four files (providers 93-99, filters 77-83, integrations 66-72,
src/pipelines 49-55). -/
def stormEngineArgs (outdir : Nat) : EngineArgs :=
  { output_dir := outdir
    max_conv_turn := 3
    max_perspective := 3
    search_top_k := 3
    max_thread_num := 3 }

/-- Call `YouRM(ydc_api_key=<YOU_API_KEY>, k=5)` — identical in all four files
(providers 101, filters 85, integrations 74, src/pipelines 57). -/
def stormYouRM (v : Valves) : YouRMSpec :=
  { ydc_api_key := v.YOU_API_KEY, k := 5 }

/-! ## `research_topic` -/

/-- Method `Pipeline.research_topic` of the providers variant (lines 51-152):
key checks, config assembly, fresh `mkdtemp`, engine run/post_run/summary,
article read, best-effort citations append. -/
def research_topic_providers (v : Valves) (topic : String) (env : EngineEnv)
    (alloc : Nat) : RunResult :=
  if v.OPENAI_API_KEY = "" then ⟨.ok openaiKeyMsg, [], alloc⟩
  else if v.YOU_API_KEY = "" then ⟨.ok youKeyMsg, [], alloc⟩
  else
    let dir := alloc
    let effs := [Effect.mkdtemp dir,
      Effect.engineConstructed (stormEngineArgs dir) (providersLMConfigs v) (stormYouRM v),
      Effect.engineRun topic]
    match env.runOutcome with
    | .error e => ⟨.error e, effs, alloc + 1⟩
    | .ok _ =>
      let effs := effs ++ [Effect.enginePostRun]
      match env.postRunOutcome with
      | .error e => ⟨.error e, effs, alloc + 1⟩
      | .ok _ =>
        let effs := effs ++ [Effect.engineSummary]
        match env.summaryOutcome with
        | .error e => ⟨.error e, effs, alloc + 1⟩
        | .ok _ =>
          match env.polishedArticle with
          | none => ⟨.ok articleNotFoundMsg, effs, alloc + 1⟩
          | some art =>
            let effs := effs ++ [Effect.readArticle]
            match env.citationsFile with
            | some (.ok cdata) =>
                ⟨.ok (art ++ "\n\n" ++ generate_citations_markdown cdata), effs, alloc + 1⟩
            | some (.error _) => ⟨.ok art, effs, alloc + 1⟩
            | none => ⟨.ok art, effs, alloc + 1⟩

/-- Method `Pipeline.Tools.research_topic` of the filters variant (lines 35-117):
as the providers variant but with no citations handling — the article is
returned exactly as read. -/
def research_topic_filters (v : Valves) (topic : String) (env : EngineEnv)
    (alloc : Nat) : RunResult :=
  if v.OPENAI_API_KEY = "" then ⟨.ok openaiKeyMsg, [], alloc⟩
  else if v.YOU_API_KEY = "" then ⟨.ok youKeyMsg, [], alloc⟩
  else
    let dir := alloc
    let effs := [Effect.mkdtemp dir,
      Effect.engineConstructed (stormEngineArgs dir) (filtersLMConfigs v) (stormYouRM v),
      Effect.engineRun topic]
    match env.runOutcome with
    | .error e => ⟨.error e, effs, alloc + 1⟩
    | .ok _ =>
      let effs := effs ++ [Effect.enginePostRun]
      match env.postRunOutcome with
      | .error e => ⟨.error e, effs, alloc + 1⟩
      | .ok _ =>
        let effs := effs ++ [Effect.engineSummary]
        match env.summaryOutcome with
        | .error e => ⟨.error e, effs, alloc + 1⟩
        | .ok _ =>
          match env.polishedArticle with
          | none => ⟨.ok articleNotFoundMsg, effs, alloc + 1⟩
          | some art => ⟨.ok art, effs ++ [Effect.readArticle], alloc + 1⟩

/-- The state a fully constructed integrations `Tools` object would carry
(lines 39-74): valves plus the configuration objects its constructor
stores on `self`, including the single `temp_output_dir` allocated once at
construction time. -/
structure ToolsIntegrationsState where
  valves : Valves
  temp_output_dir : Nat
  lm_configs : LMConfigsAssignment
  engine_args : EngineArgs
  research_module : YouRMSpec
deriving DecidableEq

/-- Method `Tools.research_topic` of the integrations variant (lines 76-109):
no directory allocation here — the runner is built from the
constructor-stored `self.engine_args`, `self.lm_configs`,
`self.research_module`. -/
def research_topic_integrations (t : ToolsIntegrationsState) (topic : String)
    (env : EngineEnv) : Except PyError String × List Effect :=
  if t.valves.OPENAI_API_KEY = "" then (.ok openaiKeyMsg, [])
  else if t.valves.YOU_API_KEY = "" then (.ok youKeyMsg, [])
  else
    let effs := [Effect.engineConstructed t.engine_args t.lm_configs t.research_module,
      Effect.engineRun topic]
    match env.runOutcome with
    | .error e => (.error e, effs)
    | .ok _ =>
      let effs := effs ++ [Effect.enginePostRun]
      match env.postRunOutcome with
      | .error e => (.error e, effs)
      | .ok _ =>
        let effs := effs ++ [Effect.engineSummary]
        match env.summaryOutcome with
        | .error e => (.error e, effs)
        | .ok _ =>
          match env.polishedArticle with
          | none => (.ok articleNotFoundMsg, effs)
          | some art => (.ok art, effs ++ [Effect.readArticle])

/-- Method `Pipeline.Tools.research_topic` of the src/pipelines variant (lines
59-92): textually the same flow as the integrations variant, reading the
valves through `self.pipeline.valves`. -/
def research_topic_pipelinesTools (t : ToolsIntegrationsState) (topic : String)
    (env : EngineEnv) : Except PyError String × List Effect :=
  if t.valves.OPENAI_API_KEY = "" then (.ok openaiKeyMsg, [])
  else if t.valves.YOU_API_KEY = "" then (.ok youKeyMsg, [])
  else
    let effs := [Effect.engineConstructed t.engine_args t.lm_configs t.research_module,
      Effect.engineRun topic]
    match env.runOutcome with
    | .error e => (.error e, effs)
    | .ok _ =>
      let effs := effs ++ [Effect.enginePostRun]
      match env.postRunOutcome with
      | .error e => (.error e, effs)
      | .ok _ =>
        let effs := effs ++ [Effect.engineSummary]
        match env.summaryOutcome with
        | .error e => (.error e, effs)
        | .ok _ =>
          match env.polishedArticle with
          | none => (.ok articleNotFoundMsg, effs)
          | some art => (.ok art, effs ++ [Effect.readArticle])

/-! ## `pipe` (chat-driven entry point, providers variant, lines 186-217) -/

/-- Python: `sum(1 for message in messages if message["role"] == "user")` -/
def userMessageCount (messages : List Message) : Nat :=
  (messages.filter (fun m => m.role = "user")).length

/-- The `try ... except Exception as e: return f"Error extracting topic:
{str(e)}"` wrapper: the try block also contains the `research_topic` call,
so an exception escaping it is caught and reported the same way. -/
def wrapTopicExtraction (r : RunResult) : RunResult :=
  match r.result with
  | .error e => ⟨.ok ("Error extracting topic: " ++ e.str), r.effects, r.alloc⟩
  | .ok s => ⟨.ok s, r.effects, r.alloc⟩

/-- Method `Pipeline.pipe` of the providers variant (lines 186-217). -/
def pipe (v : Valves) (user_message : String) (messages : List Message)
    (env : EngineEnv) (alloc : Nat) : RunResult :=
  if userMessageCount messages ≤ 1 then
    match env.extractTopic user_message with
    | .error e => ⟨.ok ("Error extracting topic: " ++ e.str), [], alloc⟩
    | .ok content => wrapTopicExtraction (research_topic_providers v content.trim env alloc)
  else ⟨.ok refusalMsg, [], alloc⟩

/-! ## Name resolution in the broken constructors

The integrations `Tools.__init__` (lines 39-74) and the src/pipelines
`Pipeline.Tools.__init__` (lines 22-57) are straight-line statement
sequences.  We model each statement by the names it references (in
evaluation order) and the local names it binds, and interpret the sequence
under the Python rule that evaluating an unbound name raises `NameError`.
Attribute assignments such as `self.lm_configs = ...` bind no local name;
keyword arguments such as `model=` are not name references. -/

/-- One straight-line Python statement, abstracted to the names it
references and the local names it binds. -/
structure PyStmt where
  refs : List String
  binds : List String

/-- First name in `refs` that is bound neither locally nor at module
level. -/
def firstUnboundRef (bound : List String) (refs : List String) : Option String :=
  refs.find? (fun n => ¬ bound.contains n)

/-- Run a statement sequence: evaluating a statement that references an
unbound name raises `NameError` there; otherwise its bindings are added
and execution continues. -/
def runStmts (globals : List String) : List PyStmt → List String → Except PyError (List String)
  | [], locals => .ok locals
  | s :: rest, locals =>
    match firstUnboundRef (locals ++ globals) s.refs with
    | some n => .error (.nameError n)
    | none => runStmts globals rest (locals ++ s.binds)

/-- Module-level names of the integrations file (its imports, lines 12-18,
plus the class being defined) together with the Python builtins the file
uses. -/
def integrationsGlobals : List String :=
  ["tempfile", "os", "STORMWikiRunnerArguments", "STORMWikiRunner",
   "STORMWikiLMConfigs", "OpenAIModel", "AzureOpenAIModel", "YouRM",
   "BaseModel", "Field", "Tools", "print", "open", "int", "str", "len", "sum"]

/-- Body of the integrations `Tools.__init__` (lines 39-74), statement by
statement.  Parameters `self` and `valves` are the initial locals. -/
def integrationsToolsInitStmts : List PyStmt :=
  [ -- self.valves = valves
    ⟨["valves", "self"], []⟩,
    -- self.lm_configs = STORMWikiLMConfigs()
    ⟨["STORMWikiLMConfigs", "self"], []⟩,
    -- self.openai_kwargs = { "api_key": self.valves.OPENAI_API_KEY, ... }
    ⟨["self"], []⟩,
    -- regular_model_name = self.valves.REGULAR_MODEL_NAME
    ⟨["self"], ["regular_model_name"]⟩,
    -- smart_model_name = self.valves.SMART_MODEL_NAME
    ⟨["self"], ["smart_model_name"]⟩,
    -- conv_simulator_lm = ModelClass(model=regular_model_name,
    --                                max_tokens=500, **openai_kwargs)
    ⟨["ModelClass", "regular_model_name", "openai_kwargs"], ["conv_simulator_lm"]⟩,
    ⟨["ModelClass", "regular_model_name", "openai_kwargs"], ["question_asker_lm"]⟩,
    ⟨["ModelClass", "smart_model_name", "openai_kwargs"], ["outline_gen_lm"]⟩,
    ⟨["ModelClass", "smart_model_name", "openai_kwargs"], ["article_gen_lm"]⟩,
    ⟨["ModelClass", "smart_model_name", "openai_kwargs"], ["article_polish_lm"]⟩,
    -- the five self.lm_configs.set_*_lm(...) calls
    ⟨["self", "conv_simulator_lm"], []⟩,
    ⟨["self", "question_asker_lm"], []⟩,
    ⟨["self", "outline_gen_lm"], []⟩,
    ⟨["self", "article_gen_lm"], []⟩,
    ⟨["self", "article_polish_lm"], []⟩,
    -- self.temp_output_dir = tempfile.mkdtemp()
    ⟨["tempfile", "self"], []⟩,
    -- print(f"Created temporary output directory: {self.temp_output_dir}")
    ⟨["print", "self"], []⟩,
    -- self.engine_args = STORMWikiRunnerArguments(output_dir=..., ...)
    ⟨["STORMWikiRunnerArguments", "self"], []⟩,
    -- self.research_module = YouRM(ydc_api_key=..., k=5)
    ⟨["YouRM", "self"], []⟩ ]

/-- Module-level names of the src/pipelines file (imports, lines 1-11,
plus the class being defined) together with the builtins it uses. -/
def pipelinesGlobals : List String :=
  ["List", "Union", "Generator", "Iterator", "Literal", "Optional",
   "OpenAIChatMessage", "subprocess", "tempfile", "os",
   "FunctionCallingBlueprint", "STORMWikiRunnerArguments", "STORMWikiRunner",
   "STORMWikiLMConfigs", "OpenAIModel", "AzureOpenAIModel", "YouRM",
   "load_api_key", "Pipeline", "print", "open", "int", "str", "len", "sum"]

/-- Body of the src/pipelines `Pipeline.Tools.__init__` (lines 22-57).
Parameters `self` and `pipeline` are the initial locals.  It is the same
statement shape as the integrations constructor (reading the valves via
`self.pipeline`), with the same five `ModelClass(...)` calls. -/
def pipelinesToolsInitStmts : List PyStmt :=
  [ -- self.pipeline = pipeline
    ⟨["pipeline", "self"], []⟩,
    -- self.lm_configs = STORMWikiLMConfigs()
    ⟨["STORMWikiLMConfigs", "self"], []⟩,
    -- self.openai_kwargs = { "api_key": self.pipeline.valves.OPENAI_API_KEY, ... }
    ⟨["self"], []⟩,
    -- regular_model_name = self.pipeline.valves.REGULAR_MODEL_NAME
    ⟨["self"], ["regular_model_name"]⟩,
    ⟨["self"], ["smart_model_name"]⟩,
    ⟨["ModelClass", "regular_model_name", "openai_kwargs"], ["conv_simulator_lm"]⟩,
    ⟨["ModelClass", "regular_model_name", "openai_kwargs"], ["question_asker_lm"]⟩,
    ⟨["ModelClass", "smart_model_name", "openai_kwargs"], ["outline_gen_lm"]⟩,
    ⟨["ModelClass", "smart_model_name", "openai_kwargs"], ["article_gen_lm"]⟩,
    ⟨["ModelClass", "smart_model_name", "openai_kwargs"], ["article_polish_lm"]⟩,
    ⟨["self", "conv_simulator_lm"], []⟩,
    ⟨["self", "question_asker_lm"], []⟩,
    ⟨["self", "outline_gen_lm"], []⟩,
    ⟨["self", "article_gen_lm"], []⟩,
    ⟨["self", "article_polish_lm"], []⟩,
    ⟨["tempfile", "self"], []⟩,
    ⟨["print", "self"], []⟩,
    ⟨["STORMWikiRunnerArguments", "self"], []⟩,
    ⟨["YouRM", "self"], []⟩ ]

/-! ## The syntax error in the src/pipelines `Pipeline.__init__`

The dict literal passed to `self.Valves(**{...})` at lines 102-111 must
be a comma-separated sequence of entries.  We tokenise its items (an
`entry` is either a `**`-unpacking or a `key: value` pair) and check the
comma discipline with a two-state automaton. -/

/-- A token of a dict-literal body: an entry or a separating comma. -/
inductive DictItemTok where
  | entry
  | comma
deriving DecidableEq

/-- State false: an entry is expected (start, or just after a comma);
state true: a comma or the closing brace is expected (just after an
entry).  A trailing comma is legal; two adjacent entries are not. -/
def dictSepOkAux : Bool → List DictItemTok → Bool
  | _, [] => true
  | false, .entry :: rest => dictSepOkAux true rest
  | false, .comma :: _ => false
  | true, .comma :: rest => dictSepOkAux false rest
  | true, .entry :: _ => false

/-- Grammar check: the body parses as `entry (comma entry)* comma?`. -/
def dictSepOk (l : List DictItemTok) : Bool := dictSepOkAux false l

/-- The items of the dict literal at src/pipelines lines 103-110, in
source order: `**self.valves.model_dump()`, `"pipelines": [...]`,
`"OPENAI_API_KEY": ...`, `"YOU_API_KEY": ...`,
`"REGULAR_MODEL_NAME": os.getenv(...)` — then, with no separating comma
(line 108 ends right after the closing parenthesis),
`"SMART_MODEL_NAME": os.getenv(...)` and a trailing comma. -/
def pipelinesValvesDictToks : List DictItemTok :=
  [.entry, .comma, .entry, .comma, .entry, .comma, .entry, .comma,
   .entry, .entry, .comma]

/-! ## Shutdown and the filesystem directory set -/

/-- Filesystem effects of `Pipeline.on_shutdown` of the providers variant
(lines 181-183).  Its whole body is
`print(f"on_shutdown:{__name__}")` followed by `pass`: no filesystem
operation at all.  (The filters and src/pipelines variants define no
shutdown handler of their own, and the integrations `Tools` class has
none.) -/
def on_shutdown_providers_effects : List Effect := []

/-- Semantics of an effect list on the set of existing directories:
`mkdtemp` creates, `rmtree` deletes, everything else leaves the
filesystem alone. -/
def applyEffects (effs : List Effect) (dirs : List Nat) : List Nat :=
  effs.foldl
    (fun ds e =>
      match e with
      | .mkdtemp d => ds ++ [d]
      | .rmtree d => ds.filter (fun x => x ≠ d)
      | _ => ds)
    dirs

/-- Directories allocated by `tempfile.mkdtemp` during a call, in order. -/
def allocatedDirs (effs : List Effect) : List Nat :=
  effs.filterMap (fun e => match e with | .mkdtemp d => some d | _ => none)

/-- Output directories handed to constructed engines during a call. -/
def usedOutDirs (effs : List Effect) : List Nat :=
  effs.filterMap
    (fun e => match e with | .engineConstructed args _ _ => some args.output_dir | _ => none)

/-! ## Properties of the stable sort used by the citations renderer -/

theorem mem_insertAfterLe {x z : Int × String} {l : List (Int × String)} :
    z ∈ insertAfterLe x l ↔ z = x ∨ z ∈ l := by
  induction l with
  | nil => simp [insertAfterLe]
  | cons y ys ih =>
    rw [insertAfterLe]
    by_cases hyx : y.1 ≤ x.1
    · simp only [if_pos hyx, List.mem_cons, ih]
      tauto
    · simp only [if_neg hyx, List.mem_cons]

theorem pairwise_insertAfterLe {x : Int × String} {l : List (Int × String)}
    (h : l.Pairwise (fun a b => a.1 ≤ b.1)) :
    (insertAfterLe x l).Pairwise (fun a b => a.1 ≤ b.1) := by
  induction l with
  | nil => simp [insertAfterLe]
  | cons y ys ih =>
    rw [List.pairwise_cons] at h
    obtain ⟨hy, hys⟩ := h
    rw [insertAfterLe]
    by_cases hyx : y.1 ≤ x.1
    · rw [if_pos hyx, List.pairwise_cons]
      refine ⟨fun z hz => ?_, ih hys⟩
      rcases mem_insertAfterLe.mp hz with hzx | hzys
      · exact hzx ▸ hyx
      · exact hy z hzys
    · rw [if_neg hyx, List.pairwise_cons]
      have hxy : x.1 ≤ y.1 := le_of_not_le hyx
      refine ⟨fun z hz => ?_, List.pairwise_cons.mpr ⟨hy, hys⟩⟩
      rcases List.mem_cons.mp hz with hzy | hzys
      · exact hzy ▸ hxy
      · exact le_trans hxy (hy z hzys)

theorem filter_insertAfterLe (k : Int) (x : Int × String) (l : List (Int × String))
    (h : l.Pairwise (fun a b => a.1 ≤ b.1)) :
    (insertAfterLe x l).filter (fun p => p.1 = k) =
      l.filter (fun p => p.1 = k) ++ (if x.1 = k then [x] else []) := by
  induction l with
  | nil => simp [insertAfterLe, List.filter_cons]
  | cons y ys ih =>
    rw [List.pairwise_cons] at h
    obtain ⟨hy, hys⟩ := h
    rw [insertAfterLe]
    by_cases hyx : y.1 ≤ x.1
    · rw [if_pos hyx]
      rw [List.filter_cons, List.filter_cons, ih hys]
      by_cases hyk : y.1 = k
      · simp [hyk]
      · simp [hyk]
    · rw [if_neg hyx]
      have hxy : x.1 < y.1 := lt_of_not_le hyx
      by_cases hxk : x.1 = k
      · rw [if_pos hxk]
        have hnil : (y :: ys).filter (fun p => p.1 = k) = [] := by
          rw [List.filter_eq_nil_iff]
          intro a ha
          rcases List.mem_cons.mp ha with hay | hays
          · subst hay
            simp only [decide_eq_true_eq]
            omega
          · have := hy a hays
            simp only [decide_eq_true_eq]
            omega
        rw [List.filter_cons, if_pos (by simpa using hxk), hnil]
        simp
      · rw [if_neg hxk]
        rw [List.filter_cons, if_neg (by simpa using hxk)]
        simp

theorem pairwise_pySortAux (l : List (Int × String)) :
    ∀ acc : List (Int × String), acc.Pairwise (fun a b => a.1 ≤ b.1) →
      (l.foldl (fun acc x => insertAfterLe x acc) acc).Pairwise (fun a b => a.1 ≤ b.1) := by
  induction l with
  | nil => intro acc hacc; simpa using hacc
  | cons x xs ih =>
    intro acc hacc
    simp only [List.foldl_cons]
    exact ih _ (pairwise_insertAfterLe hacc)

theorem pairwise_pySortByKey (l : List (Int × String)) :
    (pySortByKey l).Pairwise (fun a b => a.1 ≤ b.1) :=
  pairwise_pySortAux l [] (by simp)

theorem filter_pySortAux (k : Int) (l : List (Int × String)) :
    ∀ acc : List (Int × String), acc.Pairwise (fun a b => a.1 ≤ b.1) →
      (l.foldl (fun acc x => insertAfterLe x acc) acc).filter (fun p => p.1 = k) =
        acc.filter (fun p => p.1 = k) ++ l.filter (fun p => p.1 = k) := by
  induction l with
  | nil => intro acc hacc; simp
  | cons x xs ih =>
    intro acc hacc
    simp only [List.foldl_cons]
    rw [ih _ (pairwise_insertAfterLe hacc), filter_insertAfterLe k x acc hacc]
    rw [List.filter_cons]
    by_cases hxk : x.1 = k
    · simp [hxk]
    · simp [hxk]

theorem filter_pySortByKey (k : Int) (l : List (Int × String)) :
    (pySortByKey l).filter (fun p => p.1 = k) = l.filter (fun p => p.1 = k) := by
  have := filter_pySortAux k l [] (by simp)
  simpa [pySortByKey] using this

/-! ## Concrete fixtures -/

/-- A valves configuration with both keys present. -/
def goodValves : Valves := ⟨"sk-key", "you-key", "gpt-4o-mini", "gpt-4o"⟩

/-- Engine succeeds, article present, no citations file, extraction
succeeds with a padded topic. -/
def envArticleOnly : EngineEnv :=
  ⟨.ok (), .ok (), .ok (), some "THE ARTICLE", none, fun _ => .ok " Quantum Computing "⟩

/-- Engine succeeds, article present, citations file present but
malformed (reading it raises). -/
def envCitationsBroken : EngineEnv :=
  ⟨.ok (), .ok (), .ok (), some "THE ARTICLE", some (.error (.exn "bad json")), fun _ => .ok "T"⟩

/-- Engine succeeds but writes no polished article. -/
def envNoArticle : EngineEnv :=
  ⟨.ok (), .ok (), .ok (), none, none, fun _ => .ok "T"⟩

/-- The run phase raises. -/
def envRunFails : EngineEnv :=
  ⟨.error (.exn "engine boom"), .ok (), .ok (), none, none, fun _ => .ok "T"⟩

/-- The post_run hook raises. -/
def envPostRunFails : EngineEnv :=
  ⟨.ok (), .error (.exn "post boom"), .ok (), none, none, fun _ => .ok "T"⟩

/-- The summary hook raises. -/
def envSummaryFails : EngineEnv :=
  ⟨.ok (), .ok (), .error (.exn "summary boom"), none, none, fun _ => .ok "T"⟩

/-- The topic-extraction call raises. -/
def envExtractFails : EngineEnv :=
  ⟨.ok (), .ok (), .ok (), some "THE ARTICLE", none, fun _ => .error (.exn "rate limited")⟩

/-- Three URLs whose unified indices are 2, 1 and 3, one of them with
five snippets. -/
def cdTies : CitationsData :=
  { url_to_info := [("https://a", ⟨some "A", some "da", ["s1", "s2", "s3", "s4", "s5"]⟩),
                    ("https://b", ⟨some "B", some "db", []⟩),
                    ("https://c", ⟨none, none, ["t1"]⟩)]
    url_to_unified_index := [("https://a", 2), ("https://b", 1), ("https://c", 3)] }

/-- A citations mapping whose single URL has no unified-index entry. -/
def cdMissing : CitationsData :=
  { url_to_info := [("https://x", ⟨some "X", none, []⟩)]
    url_to_unified_index := [] }

/-- A conversation with two user turns. -/
def twoUserMessages : List Message :=
  [⟨"user", "Tell me about A"⟩, ⟨"assistant", "an article"⟩, ⟨"user", "Tell me about B"⟩]

/-- A conversation with a single user turn. -/
def oneUserMessage : List Message := [⟨"user", "Tell me about quantum computing"⟩]

/-- A fully constructed integrations Tools state whose constructor-time
directory is 7. -/
def sharedToolsState : ToolsIntegrationsState :=
  { valves := goodValves
    temp_output_dir := 7
    lm_configs := integrationsLMConfigs goodValves
    engine_args := stormEngineArgs 7
    research_module := stormYouRM goodValves }

/-- Bool-valued success test for the constructor interpreter. -/
def exceptIsOk : Except PyError (List String) → Bool
  | .ok _ => true
  | .error _ => false

/-! ## Claims -/

/-- C1 counterexample: with both keys empty, `research_topic` of the
providers variant returns the OpenAI guidance string, not the You.com
guidance string the claim demands when `YOU_API_KEY` is empty — the code
checks `OPENAI_API_KEY` first (lines 61-64). -/
theorem C1_counterexample :
    research_topic_providers ⟨"", "", "gpt-4o-mini", "gpt-4o"⟩ "Quantum Computing"
        envArticleOnly 0 = ⟨.ok openaiKeyMsg, [], 0⟩
    ∧ (openaiKeyMsg == youKeyMsg) = false := by
  exact ⟨rfl, rfl⟩

/-- C1 (amended): the language-model key is checked first.  If
`OPENAI_API_KEY` is empty, `research_topic` returns the fixed OpenAI
guidance string for every topic, every engine environment and every
allocator state, performing no effect (so the engine is never constructed
or invoked); if `OPENAI_API_KEY` is non-empty and `YOU_API_KEY` is empty,
it returns the fixed You.com guidance string, likewise effect-free. -/
theorem C1_key_precedence (v : Valves) (topic : String) (env : EngineEnv) (alloc : Nat) :
    (v.OPENAI_API_KEY = "" →
      research_topic_providers v topic env alloc = ⟨.ok openaiKeyMsg, [], alloc⟩)
    ∧ (v.OPENAI_API_KEY ≠ "" → v.YOU_API_KEY = "" →
      research_topic_providers v topic env alloc = ⟨.ok youKeyMsg, [], alloc⟩) := by
  constructor
  · intro h
    rw [research_topic_providers, if_pos h]
  · intro ho hy
    rw [research_topic_providers, if_neg ho, if_pos hy]

/-- C1 witness: both implications at concrete inputs. -/
theorem C1_key_precedence_witness :
    research_topic_providers ⟨"", "you-key", "gpt-4o-mini", "gpt-4o"⟩ "t" envArticleOnly 0 =
      ⟨.ok openaiKeyMsg, [], 0⟩
    ∧ research_topic_providers ⟨"sk-key", "", "gpt-4o-mini", "gpt-4o"⟩ "t" envArticleOnly 0 =
      ⟨.ok youKeyMsg, [], 0⟩ :=
  ⟨(C1_key_precedence ⟨"", "you-key", "gpt-4o-mini", "gpt-4o"⟩ "t" envArticleOnly 0).1 rfl,
   (C1_key_precedence ⟨"sk-key", "", "gpt-4o-mini", "gpt-4o"⟩ "t" envArticleOnly 0).2
     (by decide) rfl⟩

/-- C2: running the integrations `Tools.__init__` statement sequence
raises `NameError` on the undefined `ModelClass` (and would next trip on
`openai_kwargs`), as does the src/pipelines `Pipeline.Tools.__init__`;
neither can produce a constructed state, so `research_topic` is
unreachable in those variants.  Additionally the dict literal in the
src/pipelines `Pipeline.__init__` (missing comma between lines 108 and
109) fails the comma-separation grammar, so that module cannot even be
compiled. -/
theorem C2_constructors_unreachable :
    runStmts integrationsGlobals integrationsToolsInitStmts ["self", "valves"] =
      .error (.nameError "ModelClass")
    ∧ runStmts pipelinesGlobals pipelinesToolsInitStmts ["self", "pipeline"] =
      .error (.nameError "ModelClass")
    ∧ exceptIsOk (runStmts integrationsGlobals integrationsToolsInitStmts ["self", "valves"]) =
      false
    ∧ exceptIsOk (runStmts pipelinesGlobals pipelinesToolsInitStmts ["self", "pipeline"]) =
      false
    ∧ dictSepOk pipelinesValvesDictToks = false := by
  exact ⟨rfl, rfl, rfl, rfl, rfl⟩

/-- C10 counterexample: after the providers `on_shutdown` (the only
shutdown handler defined anywhere in the four files) the previously
existing temporary directory 0 still exists — the handler performs no
filesystem effect at all, so no variant deletes its output directory. -/
theorem C10_counterexample :
    applyEffects on_shutdown_providers_effects [0] = [0]
    ∧ on_shutdown_providers_effects = [] := by
  exact ⟨rfl, rfl⟩

/-- C10 (amended): no variant deletes its temporary output directory on
shutdown: the providers `on_shutdown` only logs, so every directory that
exists before it runs still exists afterwards; the other variants define
no shutdown cleanup at all. -/
theorem C10_shutdown_keeps_dirs (dirs : List Nat) (d : Nat) (h : d ∈ dirs) :
    d ∈ applyEffects on_shutdown_providers_effects dirs := by
  simpa [applyEffects, on_shutdown_providers_effects] using h

/-- C10 witness: directory 0 survives shutdown. -/
theorem C10_shutdown_keeps_dirs_witness :
    (0 : Nat) ∈ applyEffects on_shutdown_providers_effects [0] :=
  C10_shutdown_keeps_dirs [0] 0 (by decide)

/-- C3: with both keys non-empty and the engine lifecycle succeeding,
whenever the polished-article file exists its contents come back: the
filters variant returns exactly the file contents, and the providers
(citations-appending) variant returns them unchanged whenever the
citations file is absent or reading/parsing it raises — the failure is
swallowed. -/
theorem C3_article_contents (v : Valves) (topic : String) (env : EngineEnv) (alloc : Nat)
    (ho : v.OPENAI_API_KEY ≠ "") (hy : v.YOU_API_KEY ≠ "")
    (hr : env.runOutcome = .ok ()) (hp : env.postRunOutcome = .ok ())
    (hs : env.summaryOutcome = .ok ()) (art : String)
    (ha : env.polishedArticle = some art) :
    (research_topic_filters v topic env alloc).result = .ok art
    ∧ (env.citationsFile = none →
        (research_topic_providers v topic env alloc).result = .ok art)
    ∧ (∀ e, env.citationsFile = some (.error e) →
        (research_topic_providers v topic env alloc).result = .ok art) := by
  refine ⟨?_, ?_, ?_⟩
  · simp [research_topic_filters, if_neg ho, if_neg hy, hr, hp, hs, ha]
  · intro hc
    simp [research_topic_providers, if_neg ho, if_neg hy, hr, hp, hs, ha, hc]
  · intro e hc
    simp [research_topic_providers, if_neg ho, if_neg hy, hr, hp, hs, ha, hc]

/-- C3 witness: concrete environments with the article present and the
citations file absent respectively malformed. -/
theorem C3_article_contents_witness :
    (research_topic_filters goodValves "Quantum Computing" envArticleOnly 0).result =
      .ok "THE ARTICLE"
    ∧ (research_topic_providers goodValves "Quantum Computing" envArticleOnly 0).result =
      .ok "THE ARTICLE"
    ∧ (research_topic_providers goodValves "Quantum Computing" envCitationsBroken 0).result =
      .ok "THE ARTICLE" :=
  ⟨(C3_article_contents goodValves "Quantum Computing" envArticleOnly 0
      (by decide) (by decide) rfl rfl rfl "THE ARTICLE" rfl).1,
   (C3_article_contents goodValves "Quantum Computing" envArticleOnly 0
      (by decide) (by decide) rfl rfl rfl "THE ARTICLE" rfl).2.1 rfl,
   (C3_article_contents goodValves "Quantum Computing" envCitationsBroken 0
      (by decide) (by decide) rfl rfl rfl "THE ARTICLE" rfl).2.2 (.exn "bad json") rfl⟩

/-- C4: with both keys non-empty, a missing polished-article file yields
exactly the fixed not-found string, and any exception raised by the run,
post_run or summary calls propagates out of `research_topic` untouched —
nothing is caught or translated. -/
theorem C4_not_found_only_signal (v : Valves) (topic : String) (env : EngineEnv) (alloc : Nat)
    (ho : v.OPENAI_API_KEY ≠ "") (hy : v.YOU_API_KEY ≠ "") :
    (env.runOutcome = .ok () → env.postRunOutcome = .ok () → env.summaryOutcome = .ok () →
      env.polishedArticle = none →
      (research_topic_providers v topic env alloc).result = .ok articleNotFoundMsg)
    ∧ (∀ e, env.runOutcome = .error e →
        (research_topic_providers v topic env alloc).result = .error e)
    ∧ (∀ e, env.runOutcome = .ok () → env.postRunOutcome = .error e →
        (research_topic_providers v topic env alloc).result = .error e)
    ∧ (∀ e, env.runOutcome = .ok () → env.postRunOutcome = .ok () →
        env.summaryOutcome = .error e →
        (research_topic_providers v topic env alloc).result = .error e) := by
  refine ⟨?_, ?_, ?_, ?_⟩
  · intro hr hp hs ha
    simp [research_topic_providers, if_neg ho, if_neg hy, hr, hp, hs, ha]
  · intro e hr
    simp [research_topic_providers, if_neg ho, if_neg hy, hr]
  · intro e hr hp
    simp [research_topic_providers, if_neg ho, if_neg hy, hr, hp]
  · intro e hr hp hs
    simp [research_topic_providers, if_neg ho, if_neg hy, hr, hp, hs]

/-- C4 witness: the four branches at concrete environments. -/
theorem C4_not_found_only_signal_witness :
    (research_topic_providers goodValves "T" envNoArticle 0).result = .ok articleNotFoundMsg
    ∧ (research_topic_providers goodValves "T" envRunFails 0).result =
      .error (.exn "engine boom")
    ∧ (research_topic_providers goodValves "T" envPostRunFails 0).result =
      .error (.exn "post boom")
    ∧ (research_topic_providers goodValves "T" envSummaryFails 0).result =
      .error (.exn "summary boom") :=
  ⟨(C4_not_found_only_signal goodValves "T" envNoArticle 0 (by decide) (by decide)).1
      rfl rfl rfl rfl,
   (C4_not_found_only_signal goodValves "T" envRunFails 0 (by decide) (by decide)).2.1
      (.exn "engine boom") rfl,
   (C4_not_found_only_signal goodValves "T" envPostRunFails 0 (by decide) (by decide)).2.2.1
      (.exn "post boom") rfl rfl,
   (C4_not_found_only_signal goodValves "T" envSummaryFails 0 (by decide) (by decide)).2.2.2
      (.exn "summary boom") rfl rfl rfl⟩

/-- C5: the rendered citations document is headed by the Citations
heading; its entries are in ascending order of assigned citation number
with ties kept in the source order of the url_to_info keys (the filter by
any fixed number is preserved by the sort); a URL absent from
url_to_unified_index is assigned number 0; each entry renders the number,
the title (default Untitled) linked to the URL, the description (default
No description available), at most the first three snippets as bullets and
a horizontal rule; and on the concrete mapping with unified indices
2, 1, 3, the entries come out in order 1, 2, 3 with a five-snippet list
truncated to three. -/
theorem C5_citations_renderer (cd : CitationsData) :
    (∃ rest, generate_citations_markdown cd = "## Citations\n\n" ++ rest)
    ∧ (citationsList cd).Pairwise (fun a b => a.1 ≤ b.1)
    ∧ (∀ k : Int, (citationsList cd).filter (fun p => p.1 = k) =
        (rawCitationsList cd).filter (fun p => p.1 = k))
    ∧ (∀ url info, (url, info) ∈ cd.url_to_info →
        cd.url_to_unified_index.lookup url = none →
        ((0 : Int), url) ∈ rawCitationsList cd)
    ∧ (∀ p : Int × String, citationEntry cd p =
        "### [" ++ toString p.1 ++ "] ["
          ++ ((cd.url_to_info.lookup p.2).getD defaultUrlInfo).title.getD "Untitled"
          ++ "](" ++ p.2 ++ ")\n\n"
          ++ ((cd.url_to_info.lookup p.2).getD defaultUrlInfo).description.getD
              "No description available"
          ++ "\n\n"
          ++ (if ((cd.url_to_info.lookup p.2).getD defaultUrlInfo).snippets.isEmpty then ""
              else "**Relevant Snippets:**\n\n"
                ++ snippetBullets ((cd.url_to_info.lookup p.2).getD defaultUrlInfo).snippets)
          ++ "---\n\n")
    ∧ (∀ s : List String, ((s.take 3).map (fun x => "- " ++ x ++ "\n\n")).length ≤ 3)
    ∧ citationsList cdTies = [(1, "https://b"), (2, "https://a"), (3, "https://c")]
    ∧ citationEntry cdTies (2, "https://a") =
        "### [2] [A](https://a)\n\nda\n\n**Relevant Snippets:**\n\n- s1\n\n- s2\n\n- s3\n\n---\n\n" := by
  refine ⟨⟨String.join ((citationsList cd).map (citationEntry cd)), rfl⟩,
    pairwise_pySortByKey _, fun k => filter_pySortByKey k _, ?_,
    fun p => rfl, fun s => ?_, rfl, rfl⟩
  · intro url info hmem hlook
    refine List.mem_map.mpr ⟨(url, info), hmem, ?_⟩
    simp [hlook]
  · rw [List.length_map, List.length_take]
    omega

/-- C5 witness: the missing-index default at a concrete mapping. -/
theorem C5_citations_renderer_witness :
    ((0 : Int), "https://x") ∈ rawCitationsList cdMissing :=
  (C5_citations_renderer cdMissing).2.2.2.1 "https://x" ⟨some "X", none, []⟩ (by decide) rfl

/-- C6: the chat-driven `pipe` refuses verbatim, with no effects, as soon
as the conversation holds two or more user messages, and only the
at-most-one case runs topic extraction and research. -/
theorem C6_refusal_gate (v : Valves) (user_message : String) (messages : List Message)
    (env : EngineEnv) (alloc : Nat) :
    (2 ≤ userMessageCount messages →
      pipe v user_message messages env alloc = ⟨.ok refusalMsg, [], alloc⟩)
    ∧ (userMessageCount messages ≤ 1 →
      pipe v user_message messages env alloc =
        match env.extractTopic user_message with
        | .error e => ⟨.ok ("Error extracting topic: " ++ PyError.str e), [], alloc⟩
        | .ok content => wrapTopicExtraction (research_topic_providers v content.trim env alloc)) := by
  constructor
  · intro h
    rw [pipe, if_neg (by omega)]
  · intro h
    rw [pipe, if_pos h]

/-- C6 witness: a two-user-message conversation is refused; a single-user
conversation proceeds to extraction. -/
theorem C6_refusal_gate_witness :
    pipe goodValves "Tell me about B" twoUserMessages envArticleOnly 0 =
      ⟨.ok refusalMsg, [], 0⟩
    ∧ pipe goodValves "Tell me about quantum computing" oneUserMessage envArticleOnly 0 =
      wrapTopicExtraction
        (research_topic_providers goodValves " Quantum Computing ".trim envArticleOnly 0) :=
  ⟨(C6_refusal_gate goodValves "Tell me about B" twoUserMessages envArticleOnly 0).1
      (by decide),
   (C6_refusal_gate goodValves "Tell me about quantum computing" oneUserMessage
      envArticleOnly 0).2 (by decide)⟩

/-- With both keys set, the providers `research_topic` always reaches
`runner.run(topic=...)`: the run effect with exactly the given topic is
among its effects, whatever the engine outcome. -/
theorem engineRun_mem_research_providers (v : Valves) (topic : String) (env : EngineEnv)
    (alloc : Nat) (ho : v.OPENAI_API_KEY ≠ "") (hy : v.YOU_API_KEY ≠ "") :
    Effect.engineRun topic ∈ (research_topic_providers v topic env alloc).effects := by
  obtain ⟨ro, po, so, pa, cf, et⟩ := env
  rw [research_topic_providers, if_neg ho, if_neg hy]
  rcases ro with e | u
  · simp
  rcases po with e | u
  · simp
  rcases so with e | u
  · simp
  rcases pa with _ | art
  · simp
  rcases cf with _ | cf
  · simp
  rcases cf with e | d <;> simp

/-- The try-block wrapper changes only the result, never the recorded
effects or the allocator state. -/
theorem wrapTopicExtraction_effects (r : RunResult) :
    (wrapTopicExtraction r).effects = r.effects := by
  rcases r with ⟨res, effs, a⟩
  rcases res with e | s <;> rfl

/-- C7: on a first user turn, a failing topic-extraction call makes `pipe`
return the formatted error string embedding the exception text instead of
propagating; on success, `pipe` behaves as `research_topic` applied to the
whitespace-trimmed response (wrapped in the same try block), and with both
keys set the engine is run with exactly that trimmed topic. -/
theorem C7_topic_extraction (v : Valves) (user_message : String) (messages : List Message)
    (env : EngineEnv) (alloc : Nat) (hc : userMessageCount messages ≤ 1) :
    (∀ e, env.extractTopic user_message = .error e →
      pipe v user_message messages env alloc =
        ⟨.ok ("Error extracting topic: " ++ PyError.str e), [], alloc⟩)
    ∧ (∀ s, env.extractTopic user_message = .ok s →
      pipe v user_message messages env alloc =
        wrapTopicExtraction (research_topic_providers v s.trim env alloc))
    ∧ (∀ s, env.extractTopic user_message = .ok s → v.OPENAI_API_KEY ≠ "" →
        v.YOU_API_KEY ≠ "" →
      Effect.engineRun s.trim ∈ (pipe v user_message messages env alloc).effects) := by
  refine ⟨?_, ?_, ?_⟩
  · intro e he
    rw [pipe, if_pos hc, he]
  · intro s hs
    rw [pipe, if_pos hc, hs]
  · intro s hs ho hy
    rw [pipe, if_pos hc, hs, wrapTopicExtraction_effects]
    exact engineRun_mem_research_providers v s.trim env alloc ho hy

/-- C7 witness: a raising extraction call at a concrete input, and a
successful one whose trimmed topic reaches the engine. -/
theorem C7_topic_extraction_witness :
    pipe goodValves "m" oneUserMessage envExtractFails 0 =
      ⟨.ok ("Error extracting topic: " ++ PyError.str (.exn "rate limited")), [], 0⟩
    ∧ pipe goodValves "m" oneUserMessage envArticleOnly 0 =
      wrapTopicExtraction
        (research_topic_providers goodValves " Quantum Computing ".trim envArticleOnly 0)
    ∧ Effect.engineRun " Quantum Computing ".trim ∈
        (pipe goodValves "m" oneUserMessage envArticleOnly 0).effects :=
  ⟨(C7_topic_extraction goodValves "m" oneUserMessage envExtractFails 0 (by decide)).1
      (.exn "rate limited") rfl,
   (C7_topic_extraction goodValves "m" oneUserMessage envArticleOnly 0 (by decide)).2.1
      " Quantum Computing " rfl,
   (C7_topic_extraction goodValves "m" oneUserMessage envArticleOnly 0 (by decide)).2.2
      " Quantum Computing " rfl (by decide) (by decide)⟩

/-- The model-role assignment exactly as the spec states it: the regular
tier serves the conversation simulator and the question asker at 500
output tokens each, the smart tier serves outline generation (400),
article generation (700) and article polishing (4000), all sharing one
credential, temperature 1.0 and top-p 0.9. -/
def claimedLMAssignment (key regular smart : String) : LMConfigsAssignment :=
  { conv_simulator_lm := ⟨regular, 500, key, 1, 9/10⟩
    question_asker_lm := ⟨regular, 500, key, 1, 9/10⟩
    outline_gen_lm := ⟨smart, 400, key, 1, 9/10⟩
    article_gen_lm := ⟨smart, 700, key, 1, 9/10⟩
    article_polish_lm := ⟨smart, 4000, key, 1, 9/10⟩ }

/-- C8: in every variant the five model roles match the fixed assignment
table, the engine arguments are exactly max_conv_turn=3, max_perspective=3,
search_top_k=3, max_thread_num=3, and the retrieval collaborator is bound
to the research-provider key with k=5 results per query (one of the two
fixed counts 3 or 5). -/
theorem C8_fixed_configuration (v : Valves) (outdir : Nat) :
    providersLMConfigs v =
      claimedLMAssignment v.OPENAI_API_KEY v.REGULAR_MODEL_NAME v.SMART_MODEL_NAME
    ∧ filtersLMConfigs v =
      claimedLMAssignment v.OPENAI_API_KEY v.REGULAR_MODEL_NAME v.SMART_MODEL_NAME
    ∧ integrationsLMConfigs v =
      claimedLMAssignment v.OPENAI_API_KEY v.REGULAR_MODEL_NAME v.SMART_MODEL_NAME
    ∧ pipelinesLMConfigs v =
      claimedLMAssignment v.OPENAI_API_KEY v.REGULAR_MODEL_NAME v.SMART_MODEL_NAME
    ∧ stormEngineArgs outdir = ⟨outdir, 3, 3, 3, 3⟩
    ∧ stormYouRM v = ⟨v.YOU_API_KEY, 5⟩
    ∧ ((stormYouRM v).k = 3 ∨ (stormYouRM v).k = 5) := by
  exact ⟨rfl, rfl, rfl, rfl, rfl, rfl, Or.inr rfl⟩

/-- With both keys set, one providers `research_topic` call allocates
exactly the one fresh directory the counter supplies, hands exactly that
directory to the engine, and advances the counter. -/
theorem research_providers_dirs (v : Valves) (topic : String) (env : EngineEnv)
    (alloc : Nat) (ho : v.OPENAI_API_KEY ≠ "") (hy : v.YOU_API_KEY ≠ "") :
    allocatedDirs (research_topic_providers v topic env alloc).effects = [alloc]
    ∧ usedOutDirs (research_topic_providers v topic env alloc).effects = [alloc]
    ∧ (research_topic_providers v topic env alloc).alloc = alloc + 1 := by
  obtain ⟨ro, po, so, pa, cf, et⟩ := env
  rw [research_topic_providers, if_neg ho, if_neg hy]
  rcases ro with e | u
  · exact ⟨rfl, rfl, rfl⟩
  rcases po with e | u
  · exact ⟨rfl, rfl, rfl⟩
  rcases so with e | u
  · exact ⟨rfl, rfl, rfl⟩
  rcases pa with _ | art
  · exact ⟨rfl, rfl, rfl⟩
  rcases cf with _ | cf
  · exact ⟨rfl, rfl, rfl⟩
  rcases cf with e | d <;> exact ⟨rfl, rfl, rfl⟩

/-- Same accounting for the filters variant. -/
theorem research_filters_dirs (v : Valves) (topic : String) (env : EngineEnv)
    (alloc : Nat) (ho : v.OPENAI_API_KEY ≠ "") (hy : v.YOU_API_KEY ≠ "") :
    allocatedDirs (research_topic_filters v topic env alloc).effects = [alloc]
    ∧ usedOutDirs (research_topic_filters v topic env alloc).effects = [alloc]
    ∧ (research_topic_filters v topic env alloc).alloc = alloc + 1 := by
  obtain ⟨ro, po, so, pa, cf, et⟩ := env
  rw [research_topic_filters, if_neg ho, if_neg hy]
  rcases ro with e | u
  · exact ⟨rfl, rfl, rfl⟩
  rcases po with e | u
  · exact ⟨rfl, rfl, rfl⟩
  rcases so with e | u
  · exact ⟨rfl, rfl, rfl⟩
  rcases pa with _ | art <;> exact ⟨rfl, rfl, rfl⟩

/-- The integrations `research_topic` allocates nothing and always hands
the engine the constructor-time directory. -/
theorem research_integrations_dirs (t : ToolsIntegrationsState) (topic : String)
    (env : EngineEnv) (ho : t.valves.OPENAI_API_KEY ≠ "") (hy : t.valves.YOU_API_KEY ≠ "") :
    allocatedDirs (research_topic_integrations t topic env).2 = []
    ∧ usedOutDirs (research_topic_integrations t topic env).2 = [t.engine_args.output_dir] := by
  obtain ⟨ro, po, so, pa, cf, et⟩ := env
  rw [research_topic_integrations, if_neg ho, if_neg hy]
  rcases ro with e | u
  · exact ⟨rfl, rfl⟩
  rcases po with e | u
  · exact ⟨rfl, rfl⟩
  rcases so with e | u
  · exact ⟨rfl, rfl⟩
  rcases pa with _ | art <;> exact ⟨rfl, rfl⟩

/-- Same for the src/pipelines `Tools.research_topic`. -/
theorem research_pipelinesTools_dirs (t : ToolsIntegrationsState) (topic : String)
    (env : EngineEnv) (ho : t.valves.OPENAI_API_KEY ≠ "") (hy : t.valves.YOU_API_KEY ≠ "") :
    allocatedDirs (research_topic_pipelinesTools t topic env).2 = []
    ∧ usedOutDirs (research_topic_pipelinesTools t topic env).2 = [t.engine_args.output_dir] := by
  obtain ⟨ro, po, so, pa, cf, et⟩ := env
  rw [research_topic_pipelinesTools, if_neg ho, if_neg hy]
  rcases ro with e | u
  · exact ⟨rfl, rfl⟩
  rcases po with e | u
  · exact ⟨rfl, rfl⟩
  rcases so with e | u
  · exact ⟨rfl, rfl⟩
  rcases pa with _ | art <;> exact ⟨rfl, rfl⟩

/-- C9 counterexample: in the integrations variant (and identically in the
src/pipelines variant), `research_topic` allocates no directory at all,
and two invocations on the same Tools state hand the engine the same
constructor-time output directory 7 — so it is not the case that every
variant allocates a fresh directory per invocation. -/
theorem C9_counterexample :
    allocatedDirs (research_topic_integrations sharedToolsState "topic one" envArticleOnly).2 = []
    ∧ usedOutDirs (research_topic_integrations sharedToolsState "topic one" envArticleOnly).2 = [7]
    ∧ usedOutDirs (research_topic_integrations sharedToolsState "topic two" envArticleOnly).2 = [7]
    ∧ allocatedDirs (research_topic_pipelinesTools sharedToolsState "topic one" envArticleOnly).2 = []
    ∧ usedOutDirs (research_topic_pipelinesTools sharedToolsState "topic one" envArticleOnly).2 = [7] := by
  exact ⟨rfl, rfl, rfl, rfl, rfl⟩

/-- C9 (amended): the providers and filters variants allocate one fresh
directory per `research_topic` invocation and pass exactly it to the
engine, so two successive invocations use the distinct directories the
freshness counter supplies; the integrations and src/pipelines variants
allocate nothing inside `research_topic` and reuse the single
constructor-time directory on every invocation. -/
theorem C9_directory_allocation (v : Valves) (t1 t2 : String) (env1 env2 : EngineEnv)
    (alloc : Nat) (t : ToolsIntegrationsState)
    (ho : v.OPENAI_API_KEY ≠ "") (hy : v.YOU_API_KEY ≠ "")
    (hto : t.valves.OPENAI_API_KEY ≠ "") (hty : t.valves.YOU_API_KEY ≠ "") :
    allocatedDirs (research_topic_providers v t1 env1 alloc).effects = [alloc]
    ∧ usedOutDirs (research_topic_providers v t1 env1 alloc).effects = [alloc]
    ∧ (research_topic_providers v t1 env1 alloc).alloc = alloc + 1
    ∧ allocatedDirs
        (research_topic_providers v t2 env2
          (research_topic_providers v t1 env1 alloc).alloc).effects = [alloc + 1]
    ∧ usedOutDirs
        (research_topic_providers v t2 env2
          (research_topic_providers v t1 env1 alloc).alloc).effects = [alloc + 1]
    ∧ alloc ≠ alloc + 1
    ∧ allocatedDirs (research_topic_filters v t1 env1 alloc).effects = [alloc]
    ∧ usedOutDirs (research_topic_filters v t1 env1 alloc).effects = [alloc]
    ∧ allocatedDirs (research_topic_integrations t t1 env1).2 = []
    ∧ usedOutDirs (research_topic_integrations t t1 env1).2 = [t.engine_args.output_dir]
    ∧ usedOutDirs (research_topic_integrations t t2 env2).2 = [t.engine_args.output_dir]
    ∧ allocatedDirs (research_topic_pipelinesTools t t1 env1).2 = []
    ∧ usedOutDirs (research_topic_pipelinesTools t t1 env1).2 = [t.engine_args.output_dir] := by
  obtain ⟨h1, h2, h3⟩ := research_providers_dirs v t1 env1 alloc ho hy
  obtain ⟨g1, g2, g3⟩ := research_providers_dirs v t2 env2 (alloc + 1) ho hy
  obtain ⟨f1, f2, _⟩ := research_filters_dirs v t1 env1 alloc ho hy
  obtain ⟨i1, i2⟩ := research_integrations_dirs t t1 env1 hto hty
  obtain ⟨_, i3⟩ := research_integrations_dirs t t2 env2 hto hty
  obtain ⟨p1, p2⟩ := research_pipelinesTools_dirs t t1 env1 hto hty
  refine ⟨h1, h2, h3, ?_, ?_, by omega, f1, f2, i1, i2, i3, p1, p2⟩
  · rw [h3]; exact g1
  · rw [h3]; exact g2

/-- C9 witness: the whole statement at concrete inputs. -/
theorem C9_directory_allocation_witness :
    allocatedDirs (research_topic_providers goodValves "A" envArticleOnly 0).effects = [0]
    ∧ usedOutDirs
        (research_topic_providers goodValves "B" envNoArticle
          (research_topic_providers goodValves "A" envArticleOnly 0).alloc).effects = [1]
    ∧ usedOutDirs (research_topic_integrations sharedToolsState "A" envArticleOnly).2 =
      [sharedToolsState.engine_args.output_dir] :=
  ⟨(C9_directory_allocation goodValves "A" "B" envArticleOnly envNoArticle 0 sharedToolsState
      (by decide) (by decide) (by decide) (by decide)).1,
   (C9_directory_allocation goodValves "A" "B" envArticleOnly envNoArticle 0 sharedToolsState
      (by decide) (by decide) (by decide) (by decide)).2.2.2.2.1,
   (C9_directory_allocation goodValves "A" "B" envArticleOnly envNoArticle 0 sharedToolsState
      (by decide) (by decide) (by decide) (by decide)).2.2.2.2.2.2.2.2.2.1⟩

end StormWiki
